import Mathlib

/-!
Verification of the session lifecycle and reconciliation subsystem:
shallow embeddings of the port allocator, browser reconciler, session
cleanup, subdomain proxy, container event monitor, session spawn and the
multiplayer channel bus, with theorems about their specified behaviour.
-/

/-- Decidable equality for Except, so that concrete runs of the fallible
operations can be checked by decide. -/
instance instDecidableEqExcept {α β : Type} [DecidableEq α] [DecidableEq β] :
    DecidableEq (Except α β)
  | .ok x, .ok y =>
      if h : x = y then .isTrue (congrArg Except.ok h)
      else .isFalse (fun hc => h (Except.ok.inj hc))
  | .error x, .error y =>
      if h : x = y then .isTrue (congrArg Except.error h)
      else .isFalse (fun hc => h (Except.error.inj hc))
  | .ok _, .error _ => .isFalse (fun hc => Except.noConfusion hc)
  | .error _, .ok _ => .isFalse (fun hc => Except.noConfusion hc)

/-! ## Port allocator
Embedded from src/packages/browser-orchestration/src/orchestrator/daemon-controller.ts,
createPortAllocator (lines 23-52).  The JavaScript Set of allocated ports
is a Finset Nat; the loop from range.start to range.end is scanPorts. -/

namespace Ports

/-- The error thrown by allocate when the range is exhausted; the spec names
it NoPortsAvailable, the source constructs it with portAllocationFailed. -/
inductive PortError
  | NoPortsAvailable
deriving DecidableEq, Repr

structure PortRange where
  start : Nat
  «end» : Nat
deriving DecidableEq, Repr

/-- The scan `for (let port = range.start; port <= range.end; port++)`:
first port in the window of length cnt starting at lo that is not held. -/
def scanPorts : Nat → Nat → Finset Nat → Option Nat
  | _, 0, _ => none
  | lo, Nat.succ n, held =>
      if lo ∈ held then scanPorts (lo + 1) n held else some lo

/-- allocate(): lowest free port in the range, added to the held set, or
NoPortsAvailable when the whole range is held. -/
def allocate (range : PortRange) (held : Finset Nat) :
    Except PortError (Nat × Finset Nat) :=
  match scanPorts range.start (range.«end» + 1 - range.start) held with
  | some p => .ok (p, insert p held)
  | none => .error .NoPortsAvailable

/-- release(port): allocatedPorts.delete(port). -/
def release (port : Nat) (held : Finset Nat) : Finset Nat := held.erase port

/-- reserve(port): allocatedPorts.add(port). -/
def reserve (port : Nat) (held : Finset Nat) : Finset Nat := insert port held

/-- isAllocated(port): allocatedPorts.has(port). -/
def isAllocated (port : Nat) (held : Finset Nat) : Bool := decide (port ∈ held)

end Ports

/-! ## Browser reconciler
Embedded from src/unnamed/part_011 (createReconciler): startSession,
stopSession, resetToStopped.  State-store writes and daemon-controller
calls become explicit state passing plus an event trace.  The action table
and the error marking of the reconcile loop live in files that are not in
the corpus and are modelled from the spec where noted. -/

namespace Reconciler

inductive DesiredState
  | stopped
  | running
deriving DecidableEq, Repr

inductive ActualState
  | stopped
  | starting
  | running
  | stopping
  | error
deriving DecidableEq, Repr

/-- The per-session record of the browser state store (spec section 3,
fields used by the reconciler in part_011). -/
structure BrowserSessionState where
  sessionId : String
  desiredState : DesiredState
  actualState : ActualState
  streamPort : Option Nat
  lastUrl : Option String
  retryCount : Nat
  errorMessage : Option String
deriving DecidableEq, Repr

/-- StateStoreOptions: fields the store write may override; an absent field
leaves the record's value, a present one sets it (null included). -/
structure StateStoreOptions where
  retryCount : Option Nat := none
  errorMessage : Option (Option String) := none
  streamPort : Option (Option Nat) := none
deriving DecidableEq, Repr

/-- stateStore.setActualState(sessionId, actualState, options). -/
def setActualState (s : BrowserSessionState) (a : ActualState)
    (o : StateStoreOptions) : BrowserSessionState :=
  { s with
    actualState := a
    retryCount := o.retryCount.getD s.retryCount
    errorMessage := o.errorMessage.getD s.errorMessage
    streamPort := o.streamPort.getD s.streamPort }

/-- The observable effects of one reconcile action, in program order. -/
inductive RecEvent
  | setActual (a : ActualState)
  | setLastUrl (u : String)
  | daemonStart (port : Nat) (url : Option String)
  | daemonStop
  | portAllocated (p : Nat)
  | portReleased (p : Nat)
deriving DecidableEq, Repr

/-- The store record of one session together with the allocator's held set. -/
structure RecWorld where
  state : BrowserSessionState
  held : Finset Nat
deriving DecidableEq

inductive RecError
  | noPorts
  | daemonStartFailed
deriving DecidableEq, Repr

/-- Result of one reconcile action: the world at return (or at the point the
exception left the function), the effects in order, and the exception. -/
structure RecResult where
  world : RecWorld
  events : List RecEvent
  failed : Option RecError
deriving DecidableEq

structure ReconcilerConfig where
  maxRetries : Nat
deriving DecidableEq, Repr

/-- startSession (part_011 lines 30-45).  The guard returns before any
effect when retryCount has reached maxRetries; otherwise the state moves to
starting with retryCount incremented and errorMessage cleared, the stream
port is the existing one or a fresh allocation, and the controller's start
is called with the port and lastUrl.  startOk is whether that call
succeeds; on false the exception leaves after the start call. -/
def startSession (config : ReconcilerConfig) (range : Ports.PortRange)
    (startOk : Bool) (w : RecWorld) : RecResult :=
  let session := w.state
  if config.maxRetries ≤ session.retryCount then
    ⟨w, [], none⟩
  else
    let s1 := setActualState w.state .starting
      { retryCount := some (session.retryCount + 1), errorMessage := some none }
    match session.streamPort with
    | some p =>
        let s2 := setActualState s1 .starting { streamPort := some (some p) }
        ⟨⟨s2, w.held⟩,
          [RecEvent.setActual .starting, RecEvent.setActual .starting,
            RecEvent.daemonStart p session.lastUrl],
          if startOk then none else some .daemonStartFailed⟩
    | none =>
        match Ports.allocate range w.held with
        | .error _ =>
            ⟨⟨s1, w.held⟩, [RecEvent.setActual .starting], some .noPorts⟩
        | .ok (p, held2) =>
            let s2 := setActualState s1 .starting { streamPort := some (some p) }
            ⟨⟨s2, held2⟩,
              [RecEvent.setActual .starting, RecEvent.portAllocated p,
                RecEvent.setActual .starting,
                RecEvent.daemonStart p session.lastUrl],
              if startOk then none else some .daemonStartFailed⟩

/-- The truthiness test `currentUrl && currentUrl !== "about:blank"` of
stopSession: a present, non-empty URL other than about:blank. -/
def shouldPersistUrl : Option String → Bool
  | some u => u != "" && u != "about:blank"
  | none => false

/-- stopSession (part_011 lines 47-67): persist a non-blank current URL as
lastUrl, transition stopping, call the controller's stop, release the
stream port when present, transition stopped resetting streamPort,
errorMessage and retryCount.  currentUrl is the controller's answer to
getCurrentUrl. -/
def stopSession (currentUrl : Option String) (w : RecWorld) : RecResult :=
  ⟨⟨setActualState
      (setActualState
        (match currentUrl with
         | some u =>
             if u != "" && u != "about:blank" then
               { w.state with lastUrl := some u }
             else w.state
         | none => w.state)
        .stopping {})
      .stopped
      { streamPort := some none, errorMessage := some none,
        retryCount := some 0 },
    match w.state.streamPort with
    | some p => Ports.release p w.held
    | none => w.held⟩,
    (match currentUrl with
     | some u =>
         if u != "" && u != "about:blank" then [RecEvent.setLastUrl u]
         else []
     | none => []) ++
      [RecEvent.setActual .stopping, RecEvent.daemonStop] ++
      (match w.state.streamPort with
       | some p => [RecEvent.portReleased p]
       | none => []) ++
      [RecEvent.setActual .stopped],
    none⟩

/-- resetToStopped (part_011 lines 100-111): release the port when present
and transition stopped clearing streamPort and errorMessage; retryCount is
kept. -/
def resetToStopped (w : RecWorld) : RecResult :=
  let session := w.state
  let step :=
    match session.streamPort with
    | some p => (Ports.release p w.held, [RecEvent.portReleased p])
    | none => (w.held, ([] : List RecEvent))
  let s1 := setActualState session .stopped
    { streamPort := some none, errorMessage := some none }
  ⟨⟨s1, step.1⟩, step.2 ++ [RecEvent.setActual .stopped], none⟩

inductive Action
  | StartDaemon
  | StopDaemon
  | WaitForReady
  | ResetToStopped
  | NoOp
deriving DecidableEq, Repr

/-- Modelled from the spec: computeRequiredAction, imported by part_011 from
../types/state, a file missing from the corpus.  The spec's action table
(section 4.4): StartDaemon for running/stopped, WaitForReady while
starting, running or stopping, StopDaemon toward stopped, ResetToStopped
for error below the retry cap, NoOp at the cap and for stopped/stopped. -/
def computeRequiredAction (desired : DesiredState) (actual : ActualState)
    (retryCount maxRetries : Nat) : Action :=
  match desired, actual with
  | .running, .stopped => .StartDaemon
  | .running, .starting => .WaitForReady
  | .running, .running => .WaitForReady
  | .running, .stopping => .WaitForReady
  | .running, .error =>
      if retryCount < maxRetries then .ResetToStopped else .NoOp
  | .stopped, .running => .StopDaemon
  | .stopped, .starting => .StopDaemon
  | .stopped, .stopping => .WaitForReady
  | .stopped, .stopped => .NoOp
  | .stopped, .error =>
      if retryCount < maxRetries then .ResetToStopped else .NoOp

def describeError : RecError → String
  | .noPorts => "No available ports in range"
  | .daemonStartFailed => "Daemon start failed"

/-- Modelled from the spec: the reconcile loop's error handling
(createOrchestrator is missing from the corpus); per spec section 7 a
failure of an action is caught, the error message recorded on the record
and the state marked error. -/
def markReconcileError (w : RecWorld) (e : RecError) : RecWorld :=
  { w with state :=
      { w.state with actualState := .error,
                     errorMessage := some (describeError e) } }

/-- One reconcile pass over a single session whose daemon-controller start
always fails: select the action from the record, run the embedded action,
and mark a thrown error on the record. -/
def failTick (config : ReconcilerConfig) (range : Ports.PortRange)
    (w : RecWorld) : RecWorld × List RecEvent :=
  match computeRequiredAction w.state.desiredState w.state.actualState
      w.state.retryCount config.maxRetries with
  | .StartDaemon =>
      let r := startSession config range false w
      match r.failed with
      | some e => (markReconcileError r.world e, r.events)
      | none => (r.world, r.events)
  | .ResetToStopped =>
      let r := resetToStopped w
      (r.world, r.events)
  | _ => (w, [])

/-- How many daemon-controller start calls a trace holds. -/
def startAttempts (evs : List RecEvent) : Nat :=
  (evs.filter (fun e =>
    match e with
    | RecEvent.daemonStart _ _ => true
    | _ => false)).length

def tickWorld (config : ReconcilerConfig) (range : Ports.PortRange)
    (w : RecWorld) : RecWorld :=
  (failTick config range w).1

/-- The world after n reconcile passes with a failing controller. -/
def afterTicks (config : ReconcilerConfig) (range : Ports.PortRange) :
    Nat → RecWorld → RecWorld
  | 0, w => w
  | n + 1, w => afterTicks config range n (tickWorld config range w)

/-- Start attempts issued over n reconcile passes with a failing controller. -/
def attemptsIn (config : ReconcilerConfig) (range : Ports.PortRange) :
    Nat → RecWorld → Nat
  | 0, _ => 0
  | n + 1, w =>
      startAttempts (failTick config range w).2 +
        attemptsIn config range n (tickWorld config range w)

/-- MAX_DAEMON_RETRIES = 3. -/
def cfg3 : ReconcilerConfig := ⟨3⟩

/-- STREAM_PORT_RANGE 9300-9500. -/
def streamRange : Ports.PortRange := ⟨9300, 9500⟩

def initialWorld : RecWorld :=
  ⟨⟨"session-1", .running, .stopped, none, none, 0, none⟩, ∅⟩

/-- The resting point after the retry cap: error state, retryCount 3, an
error message, the last allocated port still held. -/
def restingError : RecWorld :=
  ⟨⟨"session-1", .running, .error, some 9300, none, 3,
      some (describeError .daemonStartFailed)⟩, {9300}⟩

end Reconciler

/-! ## Reconcile-all loop
Embedded from src/unnamed/part_011 (reconcileAll, lines 136-154): the
behaviour of reconcileSession on one session is abstracted as runOne, since
it needs the whole world; the loop's try/catch, error collection and final
AggregateError are from the source. -/

namespace Reconciler

structure AggregateError where
  errors : List String
  message : String
deriving DecidableEq, Repr

/-- One iteration of the reconcileAll loop: record the attempt, and collect
the error a failing reconcileSession threw. -/
def collectStep (runOne : BrowserSessionState → Except String Unit)
    (acc : List String × List (String × String)) (s : BrowserSessionState) :
    List String × List (String × String) :=
  (acc.1 ++ [s.sessionId],
    match runOne s with
    | .ok _ => acc.2
    | .error e => acc.2 ++ [(s.sessionId, e)])

/-- reconcileAll: run every session, collect per-session failures, and throw
one AggregateError after the pass when any failed.  Returns the attempted
session ids in order and the outcome. -/
def reconcileAll (runOne : BrowserSessionState → Except String Unit)
    (sessions : List BrowserSessionState) :
    List String × Except AggregateError Unit :=
  let folded := sessions.foldl (collectStep runOne) ([], [])
  (folded.1,
    if folded.2.isEmpty then .ok ()
    else
      .error
        ⟨folded.2.map (fun p => p.2),
          "Reconciliation failed for " ++ toString folded.2.length ++
            " session(s): " ++
            String.intercalate ", " (folded.2.map (fun p => p.1))⟩)

/-- The errors the pass over sessions collects, in order. -/
def collectedErrors (runOne : BrowserSessionState → Except String Unit)
    (sessions : List BrowserSessionState) : List (String × String) :=
  sessions.flatMap (fun s =>
    match runOne s with
    | .ok _ => []
    | .error e => [(s.sessionId, e)])

end Reconciler

/-! ## Session cleanup
Embedded from src/services/api/src/utils/session/session-cleanup.ts,
cleanupSession (lines 56-112).  The database, the provider's containers,
the browser service, the proxy route table, the networks and the published
deltas are one world record; collaborator calls whose implementations are
not in the corpus (repositories, forceStopBrowser, unregisterCluster,
cleanupSessionNetwork, the cascade of deleteSession) are modelled from the
spec, section 4.5.4, as the field updates noted below. -/

namespace Cleanup

structure SessionRow where
  id : String
  projectId : String
  title : Option String
  status : String
deriving DecidableEq, Repr

structure ContainerRow where
  id : String
  sessionId : String
  dockerId : String
deriving DecidableEq, Repr

inductive PubEvent
  | sessionsRemove (id : String) (projectId : String) (title : Option String)
deriving DecidableEq, Repr

structure CleanupWorld where
  sessions : List SessionRow
  containers : List ContainerRow
  runtime : List String
  browserStopped : List String
  proxyInitialized : Bool
  routes : List String
  networks : List String
  published : List PubEvent
deriving DecidableEq, Repr

/-- cleanupSession(sessionId): return unchanged when no session row exists;
otherwise mark deleting, publish the sessions remove delta, stop and remove
every container with a runtime id, force-stop the browser, unregister the
proxy cluster when the proxy is up, remove the session network, and delete
the session row with its containers.  Each step writes one field of the
world; the step order of the source is kept in the comments. -/
def cleanupSession (sessionId : String) (w : CleanupWorld) : CleanupWorld :=
  match w.sessions.find? (fun s => s.id == sessionId) with
  | none => w
  | some session =>
      { sessions :=
          (w.sessions.map (fun s =>
            if s.id == sessionId then { s with status := "deleting" }
            else s)).filter (fun s => s.id != sessionId),
        containers := w.containers.filter (fun c => c.sessionId != sessionId),
        runtime := w.runtime.filter (fun d =>
          !((w.containers.filter (fun c => c.sessionId == sessionId)).filter
              (fun c => c.dockerId != "")).any (fun c => c.dockerId == d)),
        browserStopped := w.browserStopped ++ [sessionId],
        proxyInitialized := w.proxyInitialized,
        routes :=
          if w.proxyInitialized then
            w.routes.filter (fun r => r != sessionId)
          else w.routes,
        networks := w.networks.filter (fun n => n != "lab-" ++ sessionId),
        published := w.published ++
          [PubEvent.sessionsRemove session.id session.projectId
            session.title] }

end Cleanup

/-! ## Container event monitor
Embedded from src/services/api/src/utils/monitors/container.monitor.ts:
mapEventToStatus (lines 11-31) and the body of the monitor loop (lines
46-80) as processEvent over the session-containers table. -/

namespace Monitor

inductive ContainerStatus
  | starting
  | running
  | stopped
  | error
deriving DecidableEq, Repr

structure DockerContainerEvent where
  action : String
  containerId : String
  attributes : List (String × String)
deriving DecidableEq, Repr

def lookupAttr (attrs : List (String × String)) (k : String) : Option String :=
  (attrs.find? (fun p => p.1 == k)).map (fun p => p.2)

/-- mapEventToStatus: the fixed action-to-status mapping of the monitor. -/
def mapEventToStatus (e : DockerContainerEvent) : Option ContainerStatus :=
  match e.action with
  | "start" => some .running
  | "stop" => some .stopped
  | "die" => some .stopped
  | "kill" => some .stopped
  | "restart" => some .starting
  | "oom" => some .error
  | "health_status" =>
      if lookupAttr e.attributes "health_status" = some "unhealthy" then
        some .error
      else none
  | _ => none

/-- Modelled from the spec: the LABELS.SESSION constant of
config/constants, a file missing from the corpus; the spec names the label
lab.session. -/
def labelSession : String := "lab.session"

structure SessionContainerRow where
  id : String
  sessionId : String
  dockerId : String
  status : ContainerStatus
deriving DecidableEq, Repr

inductive MonitorDelta
  | update (channel : String) (uuid : String) (containerId : String)
      (status : ContainerStatus)
deriving DecidableEq, Repr

/-- The body of the monitor loop for one event: skip unmapped actions,
events without a non-empty lab.session attribute, and unknown runtime ids;
otherwise update the row's status (the repository update, modelled from the
spec as the by-id map) and publish the update delta on sessionContainers
keyed by the label's session id. -/
def processEvent (db : List SessionContainerRow) (e : DockerContainerEvent) :
    List SessionContainerRow × List MonitorDelta :=
  match mapEventToStatus e with
  | none => (db, [])
  | some status =>
      match lookupAttr e.attributes labelSession with
      | none => (db, [])
      | some sessionId =>
          if sessionId = "" then (db, [])
          else
            match db.find? (fun c => c.dockerId == e.containerId) with
            | none => (db, [])
            | some sc =>
                (db.map (fun c =>
                  if c.id == sc.id then { c with status := status } else c),
                  [MonitorDelta.update "sessionContainers" sessionId sc.id
                    status])

end Monitor

/-! ## Subdomain proxy
Embedded from src/services/proxy/src/main.ts: the fetch handler (lines
109-161) and buildCorsProxyResponse (lines 86-101).  corsHeaders lives in
proxy/request.ts, parseSubdomain and resolveUpstream in proxy/upstream.ts,
none of which are in the corpus: corsHeaders is modelled from the spec and
the other two are abstract parameters of the handler. -/

namespace Proxy

structure ProxRequest where
  method : String
  path : String
  host : Option String
  upgradeHeader : Option String
deriving DecidableEq, Repr

structure Upstream where
  hostname : String
  port : Nat
deriving DecidableEq, Repr

structure ProxResponse where
  status : Nat
  headers : List (String × String)
  body : String
deriving DecidableEq, Repr

/-- Modelled from the spec: corsHeaders() of proxy/request.ts, missing from
the corpus; the spec lists the three permissive headers. -/
def corsHeaders : List (String × String) :=
  [("Access-Control-Allow-Origin", "*"),
    ("Access-Control-Allow-Methods", "GET,POST,PUT,PATCH,DELETE,OPTIONS"),
    ("Access-Control-Allow-Headers",
      "Content-Type, Authorization, X-Lab-Session-Id")]

/-- Headers.set: replace any pair with the key, then add the pair. -/
def setHeader (hs : List (String × String)) (k v : String) :
    List (String × String) :=
  (hs.filter (fun p => p.1 != k)) ++ [(k, v)]

/-- buildCorsProxyResponse: the upstream response with every CORS header
set on it. -/
def buildCorsProxyResponse (response : ProxResponse) : ProxResponse :=
  { response with
    headers := corsHeaders.foldl (fun hs kv => setHeader hs kv.1 kv.2)
      response.headers }

/-- The handler's collaborators: parseSubdomain and resolveUpstream (from
proxy/upstream.ts, not in the corpus), the outcome of proxyRequest toward
the upstream, and whether a WebSocket upgrade succeeds. -/
structure ProxyEnv where
  parseSub : String → Option (String × Nat)
  resolve : String → Nat → Option Upstream
  upstream : Upstream → ProxRequest → Except Unit ProxResponse
  wsUpgradeOk : Bool

inductive FetchOutcome
  | response (r : ProxResponse)
  | wsUpgraded
deriving DecidableEq, Repr

/-- The fetch handler of main.ts: health check first, then the OPTIONS
short-circuit, then Host parsing, upstream resolution, the WebSocket
upgrade path, and the proxied response augmented with CORS headers; a
proxyRequest failure is caught and becomes a bare 500. -/
def fetchHandler (env : ProxyEnv) (req : ProxRequest) : FetchOutcome :=
  if req.path = "/health" then .response ⟨200, [], "OK"⟩
  else if req.method = "OPTIONS" then .response ⟨204, corsHeaders, ""⟩
  else
    match req.host with
    | none => .response ⟨400, [], "Bad Request: Missing Host header"⟩
    | some host =>
        match env.parseSub host with
        | none =>
            .response ⟨400, [], "Bad Request: Invalid subdomain format"⟩
        | some parsed =>
            match env.resolve parsed.1 parsed.2 with
            | none =>
                .response ⟨404, [], "Not Found: Session or port not available"⟩
            | some up =>
                if req.upgradeHeader.map (fun s => s.toLower) =
                    some "websocket" then
                  if env.wsUpgradeOk then .wsUpgraded
                  else .response ⟨500, [], "WebSocket upgrade failed"⟩
                else
                  match env.upstream up req with
                  | .error _ =>
                      .response ⟨500, [], "Internal Server Error"⟩
                  | .ok resp => .response (buildCorsProxyResponse resp)

/-- A response carries all three permissive CORS headers. -/
def hasCorsHeaders (r : ProxResponse) : Prop :=
  ∀ kv ∈ corsHeaders, kv ∈ r.headers

instance instDecidableHasCors (r : ProxResponse) :
    Decidable (hasCorsHeaders r) :=
  inferInstanceAs (Decidable (∀ kv ∈ corsHeaders, kv ∈ r.headers))

/-- A concrete environment with no routes, a failing upstream and failing
upgrades, for closed runs of the handler. -/
def env0 : ProxyEnv :=
  ⟨fun _ => none, fun _ _ => none, fun _ _ => .error (), false⟩

end Proxy

/-! ## Session spawn
Embedded from src/services/api/src/utils/browser/bootstrap.ts:
normalizeTaskSummary, extractContainerDisplayName,
createSessionWithContainers (lines 231-261) and spawnSession (lines
263-275).  The repositories (createSession, createSessionContainer) and
claimPooledSession are not in the corpus: the repositories are modelled
from the spec (section 4.5.1) as row inserts, and the pool claim is an
abstract parameter.  A thrown error carries the world as of the throw, so
that what was inserted before an exception is visible. -/

namespace Spawn

inductive SpawnError
  | NoContainerDefinitions
  | NoDisplayName (image : String)
deriving DecidableEq, Repr

structure ContainerDef where
  id : String
  image : String
  hostname : Option String
deriving DecidableEq, Repr

structure SessionRow where
  id : String
  projectId : String
  title : Option String
  status : String
deriving DecidableEq, Repr

structure SpawnContainerRow where
  id : String
  sessionId : String
  containerId : String
  dockerId : String
  status : String
deriving DecidableEq, Repr

structure ContainerView where
  id : String
  name : String
  status : String
  urls : List String
deriving DecidableEq, Repr

inductive SpawnPub
  | sessionsAdd (id : String) (projectId : String) (title : Option String)
  | containersSnapshot (uuid : String) (containers : List ContainerView)
deriving DecidableEq, Repr

structure SpawnWorld where
  sessions : List SessionRow
  sessionContainers : List SpawnContainerRow
  published : List SpawnPub
  nextId : Nat
deriving DecidableEq, Repr

/-- normalizeTaskSummary: trim and collapse every whitespace run to one
space, written as splitting on whitespace and joining the non-empty
pieces. -/
def normalizeTaskSummary (t : String) : String :=
  String.intercalate " " ((t.split Char.isWhitespace).filter
    (fun s => s != ""))

/-- The image branch of extractContainerDisplayName: last path segment of
the image, up to the first colon; an empty result is the thrown error. -/
def displayNameFromImage (image : String) : Except SpawnError String :=
  match ((image.splitOn "/").getLastD "").splitOn ":" with
  | [] => .error (.NoDisplayName image)
  | name :: _ =>
      if name = "" then .error (.NoDisplayName image) else .ok name

/-- extractContainerDisplayName: a truthy hostname wins, else the image
name. -/
def extractContainerDisplayName (c : ContainerDef) :
    Except SpawnError String :=
  match c.hostname with
  | some h => if h = "" then displayNameFromImage c.image else .ok h
  | none => displayNameFromImage c.image

/-- Modelled from the spec: the session repository's createSession insert,
missing from the corpus; a fresh id and a creating row, per spec section
4.5.1 step 4. -/
def createSession (w : SpawnWorld) (projectId : String)
    (title : Option String) : SpawnWorld × SessionRow :=
  let row : SessionRow :=
    ⟨"session-" ++ toString w.nextId, projectId, title, "creating"⟩
  ({ w with sessions := w.sessions ++ [row], nextId := w.nextId + 1 }, row)

/-- Modelled from the spec: the container repository's
createSessionContainer insert, missing from the corpus; a fresh id and a
starting row with an empty dockerId, per spec section 4.5.1 step 4. -/
def createSessionContainer (w : SpawnWorld) (sessionId containerId : String) :
    SpawnWorld × SpawnContainerRow :=
  let row : SpawnContainerRow :=
    ⟨"container-" ++ toString w.nextId, sessionId, containerId, "",
      "starting"⟩
  ({ w with sessionContainers := w.sessionContainers ++ [row]
            nextId := w.nextId + 1 }, row)

/-- publishSessionCreated: the sessions add delta and the
sessionContainers snapshot. -/
def publishSessionCreated (w : SpawnWorld) (session : SessionRow)
    (views : List ContainerView) : SpawnWorld :=
  { w with published := w.published ++
      [SpawnPub.sessionsAdd session.id session.projectId session.title,
        SpawnPub.containersSnapshot session.id views] }

/-- The loop body of createSessionWithContainers: insert the container row,
then compute the display name, whose failure leaves the loop with the rows
inserted so far. -/
def spawnStep (sessionId : String)
    (acc : SpawnWorld × Except SpawnError (List ContainerView))
    (d : ContainerDef) : SpawnWorld × Except SpawnError (List ContainerView) :=
  match acc.2 with
  | .error _ => acc
  | .ok views =>
      let r := createSessionContainer acc.1 sessionId d.id
      match extractContainerDisplayName d with
      | .error e => (r.1, .error e)
      | .ok name =>
          (r.1, .ok (views ++ [⟨r.2.id, name, "starting", []⟩]))

/-- createSessionWithContainers: fail with NoContainerDefinitions before
any insert when the project has no container definitions; otherwise insert
the session row, insert one container row per definition, publish, and
return the session with its container views. -/
def createSessionWithContainers (findDefs : String → List ContainerDef)
    (projectId : String) (title : Option String) (w : SpawnWorld) :
    SpawnWorld × Except SpawnError (SessionRow × List ContainerView) :=
  if (findDefs projectId).isEmpty then
    (w, .error .NoContainerDefinitions)
  else
    let c := createSession w projectId title
    let folded := (findDefs projectId).foldl (spawnStep c.2.id) (c.1, .ok [])
    match folded.2 with
    | .error e => (folded.1, .error e)
    | .ok views => (publishSessionCreated folded.1 c.2 views, .ok (c.2, views))

/-- spawnSession: normalize the task summary into the title, return a
claimed pooled session when one exists, else create a session with
containers.  claimPooled abstracts claimAndPreparePooledSession, whose
repository calls are not in the corpus. -/
def spawnSession (findDefs : String → List ContainerDef)
    (claimPooled : SpawnWorld →
      Option (SpawnWorld × SessionRow × List ContainerView))
    (projectId taskSummary : String) (w : SpawnWorld) :
    SpawnWorld × Except SpawnError (SessionRow × List ContainerView) :=
  let title := normalizeTaskSummary taskSummary
  match claimPooled w with
  | some r => (r.1, .ok (r.2.1, r.2.2))
  | none => createSessionWithContainers findDefs projectId (some title) w

end Spawn

/-! ## Multiplayer channel bus
Embedded from src/packages/multiplayer/server/src/handler.ts:
handleSubscribe (lines 100-140).  Channel matching (findChannelMatch with
parsePath of the shared package, not in the corpus) is an abstract
parameter; the socket's subscription set, the topic subscription and the
messages sent become a trace of events in program order. -/

namespace Bus

inductive ServerMessage
  | snapshot (channel : String) (data : String)
  | delta (channel : String) (data : String)
  | serverEvent (channel : String) (data : String)
  | errorMsg (channel : String) (error : String)
  | pong
deriving DecidableEq, Repr

structure SocketState where
  auth : String
  subscriptions : Finset String
deriving DecidableEq

structure ChannelCtx where
  auth : String
  params : List (String × String)
deriving DecidableEq

/-- A channel's handlers: the optional authorize hook and the snapshot
loader, which may throw (the Except error is the message). -/
structure ChannelHandler where
  authorize : Option (ChannelCtx → Bool)
  getSnapshot : ChannelCtx → Except String String

/-- What findChannelMatch yields: the path params, and the handler entry
(None models a schema channel without a registered handler). -/
structure ChannelMatch where
  params : List (String × String)
  handler : Option ChannelHandler

/-- The events of handling one subscribe, in program order. -/
inductive BusEvent
  | sent (m : ServerMessage)
  | subscriptionRecorded (channel : String)
  | topicSubscribed (channel : String)
  | snapshotLoaderInvoked (channel : String)
deriving DecidableEq, Repr

/-- The authorize hook's verdict: missing hooks admit. -/
def authorizeResult (h : ChannelHandler) (ctx : ChannelCtx) : Bool :=
  match h.authorize with
  | some f => f ctx
  | none => true

/-- handleSubscribe: unknown channel and missing handler produce error
messages; a denied authorize produces the Unauthorized error; otherwise
the subscription is recorded on the socket and the topic subscribed, and
only then is the snapshot loader invoked, its result sent as the snapshot
message or, when it throws, as an error message. -/
def handleSubscribe (findMatch : String → Option ChannelMatch)
    (ws : SocketState) (channel : String) : SocketState × List BusEvent :=
  match findMatch channel with
  | none => (ws, [BusEvent.sent (.errorMsg channel "Unknown channel")])
  | some mtch =>
      match mtch.handler with
      | none =>
          (ws, [BusEvent.sent (.errorMsg channel "No handler for channel")])
      | some handler =>
          if authorizeResult handler ⟨ws.auth, mtch.params⟩ then
            ({ ws with subscriptions := insert channel ws.subscriptions },
              [BusEvent.subscriptionRecorded channel,
                BusEvent.topicSubscribed channel,
                BusEvent.snapshotLoaderInvoked channel,
                BusEvent.sent
                  (match handler.getSnapshot ⟨ws.auth, mtch.params⟩ with
                   | .ok snap => ServerMessage.snapshot channel snap
                   | .error e => ServerMessage.errorMsg channel e)])
          else
            (ws, [BusEvent.sent (.errorMsg channel "Unauthorized")])

/-- Modelled from the spec: delta fan-out (section 4.7) broadcasts a delta
published on a path to every socket subscribed to that exact path. -/
def receivesDelta (ws : SocketState) (path : String) : Bool :=
  decide (path ∈ ws.subscriptions)

/-- The messages sent on the socket, in order. -/
def sentMessages (evs : List BusEvent) : List ServerMessage :=
  evs.filterMap (fun e =>
    match e with
    | BusEvent.sent m => some m
    | _ => none)

/-- How many snapshot messages for the channel a trace holds. -/
def snapshotCount (evs : List BusEvent) (channel : String) : Nat :=
  (evs.filter (fun e =>
    match e with
    | BusEvent.sent (ServerMessage.snapshot c _) => c == channel
    | _ => false)).length

def idxSnapshotSent (evs : List BusEvent) (channel : String) : Option Nat :=
  evs.findIdx? (fun e =>
    match e with
    | BusEvent.sent (ServerMessage.snapshot c _) => c == channel
    | _ => false)

def idxSubscriptionRecorded (evs : List BusEvent) (channel : String) :
    Option Nat :=
  evs.findIdx? (fun e =>
    match e with
    | BusEvent.subscriptionRecorded c => c == channel
    | _ => false)

/-- The ordering the spec asserts for a subscribe: the snapshot message is
emitted strictly before the subscription is recorded on the socket. -/
def snapshotBeforeRecord (evs : List BusEvent) (channel : String) : Prop :=
  ∃ i j, idxSnapshotSent evs channel = some i ∧
    idxSubscriptionRecorded evs channel = some j ∧ i < j

/-- A handler whose loader succeeds with the data snap. -/
def okHandler : ChannelHandler := ⟨none, fun _ => .ok "snap"⟩

/-- A handler whose loader throws boom. -/
def failHandler : ChannelHandler := ⟨none, fun _ => .error "boom"⟩

/-- A schema with the single channel sessions served by okHandler. -/
def okSchema : String → Option ChannelMatch := fun c =>
  if c == "sessions" then some ⟨[], some okHandler⟩ else none

/-- A schema with the single channel sessions served by failHandler. -/
def failSchema : String → Option ChannelMatch := fun c =>
  if c == "sessions" then some ⟨[], some failHandler⟩ else none

/-- A fresh socket with no subscriptions. -/
def freshSocket : SocketState := ⟨"auth-token", ∅⟩

end Bus


namespace Ports

theorem scanPorts_eq_some {lo cnt : Nat} {held : Finset Nat} {p : Nat}
    (h : scanPorts lo cnt held = some p) :
    lo ≤ p ∧ p < lo + cnt ∧ p ∉ held ∧ ∀ q, lo ≤ q → q < p → q ∈ held := by
  induction cnt generalizing lo with
  | zero => simp [scanPorts] at h
  | succ n ih =>
    rw [scanPorts] at h
    by_cases hmem : lo ∈ held
    · simp only [hmem, if_true] at h
      obtain ⟨h1, h2, h3, h4⟩ := ih h
      refine ⟨by omega, by omega, h3, ?_⟩
      intro q hq1 hq2
      rcases Nat.eq_or_lt_of_le hq1 with rfl | hlt
      · exact hmem
      · exact h4 q hlt hq2
    · simp only [hmem, if_false, Option.some.injEq] at h
      subst h
      exact ⟨le_refl _, by omega, hmem, fun q hq1 hq2 => absurd hq1 (by omega)⟩

theorem scanPorts_eq_none {lo cnt : Nat} {held : Finset Nat} :
    scanPorts lo cnt held = none ↔ ∀ q, lo ≤ q → q < lo + cnt → q ∈ held := by
  induction cnt generalizing lo with
  | zero => simp [scanPorts]; intro q h1 h2; omega
  | succ n ih =>
    rw [scanPorts]
    by_cases hmem : lo ∈ held
    · simp only [hmem, if_true, ih]
      constructor
      · intro h q hq1 hq2
        rcases Nat.eq_or_lt_of_le hq1 with rfl | hlt
        · exact hmem
        · exact h q hlt (by omega)
      · intro h q hq1 hq2
        exact h q (by omega) (by omega)
    · simp only [hmem, if_false]
      constructor
      · intro h; exact absurd h (by simp)
      · intro h
        exact absurd (h lo (le_refl _) (by omega)) hmem

/-- Claim C4: over any state of the allocator, allocate returns the lowest
port of the range not currently held and marks it held, and fails with
NoPortsAvailable exactly when every port of the range is held; with the
range 9300-9301 fully reserved allocate fails with NoPortsAvailable, and
after release(9300) the next allocate returns 9300. -/
theorem C4_port_allocator (range : PortRange) (held : Finset Nat) :
    (allocate range held = .error .NoPortsAvailable ↔
      ∀ p, range.start ≤ p → p ≤ range.«end» → p ∈ held) ∧
    (∀ p held2, allocate range held = .ok (p, held2) →
      range.start ≤ p ∧ p ≤ range.«end» ∧ p ∉ held ∧
        (∀ q, range.start ≤ q → q < p → q ∈ held) ∧ held2 = insert p held) ∧
    allocate ⟨9300, 9301⟩ ({9300, 9301} : Finset Nat) =
      .error .NoPortsAvailable ∧
    allocate ⟨9300, 9301⟩ (release 9300 ({9300, 9301} : Finset Nat)) =
      .ok (9300, insert 9300 (release 9300 ({9300, 9301} : Finset Nat))) := by
  refine ⟨?_, ?_, by decide, by decide⟩
  · unfold allocate
    rcases hscan : scanPorts range.start (range.«end» + 1 - range.start) held with
      _ | p
    · simp only [reduceCtorEq, true_iff]
      rw [scanPorts_eq_none] at hscan
      intro p h1 h2
      exact hscan p h1 (by omega)
    · simp only [reduceCtorEq, false_iff]
      intro hall
      obtain ⟨h1, h2, h3, _⟩ := scanPorts_eq_some hscan
      by_cases hle : range.start ≤ range.«end»
      · exact h3 (hall p h1 (by omega))
      · omega
  · intro p held2 h
    unfold allocate at h
    rcases hscan : scanPorts range.start (range.«end» + 1 - range.start) held with
      _ | q
    · rw [hscan] at h; exact absurd h (by simp)
    · rw [hscan] at h
      simp only [Except.ok.injEq, Prod.mk.injEq] at h
      obtain ⟨rfl, rfl⟩ := h
      obtain ⟨h1, h2, h3, h4⟩ := scanPorts_eq_some hscan
      exact ⟨h1, by omega, h3, h4, rfl⟩

theorem C4_port_allocator_witness :
    insert 9300 (∅ : Finset Nat) = insert 9300 (∅ : Finset Nat) :=
  ((C4_port_allocator ⟨9300, 9301⟩ ∅).2.1 9300 (insert 9300 ∅)
    (by decide)).2.2.2.2

end Ports

namespace Reconciler

theorem failTick_fixed :
    failTick cfg3 streamRange restingError = (restingError, []) := by decide

theorem afterTicks_add (c : ReconcilerConfig) (r : Ports.PortRange)
    (m n : Nat) (w : RecWorld) :
    afterTicks c r (m + n) w = afterTicks c r n (afterTicks c r m w) := by
  induction m generalizing w with
  | zero => simp [afterTicks]
  | succ k ih =>
      have h : k + 1 + n = (k + n) + 1 := by omega
      rw [h]
      show afterTicks c r (k + n) (tickWorld c r w) =
        afterTicks c r n (afterTicks c r k (tickWorld c r w))
      exact ih (tickWorld c r w)

theorem attemptsIn_add (c : ReconcilerConfig) (r : Ports.PortRange)
    (m n : Nat) (w : RecWorld) :
    attemptsIn c r (m + n) w =
      attemptsIn c r m w + attemptsIn c r n (afterTicks c r m w) := by
  induction m generalizing w with
  | zero => simp [attemptsIn, afterTicks]
  | succ k ih =>
      have h : k + 1 + n = (k + n) + 1 := by omega
      rw [h]
      show startAttempts (failTick c r w).2 +
          attemptsIn c r (k + n) (tickWorld c r w) = _
      rw [ih (tickWorld c r w)]
      show _ = startAttempts (failTick c r w).2 +
          attemptsIn c r k (tickWorld c r w) +
        attemptsIn c r n (afterTicks c r k (tickWorld c r w))
      omega

theorem afterTicks_resting (n : Nat) :
    afterTicks cfg3 streamRange n restingError = restingError := by
  induction n with
  | zero => rfl
  | succ k ih =>
      show afterTicks cfg3 streamRange k
        (tickWorld cfg3 streamRange restingError) = restingError
      rw [show tickWorld cfg3 streamRange restingError = restingError from
        congrArg Prod.fst failTick_fixed]
      exact ih

theorem attemptsIn_resting (n : Nat) :
    attemptsIn cfg3 streamRange n restingError = 0 := by
  induction n with
  | zero => rfl
  | succ k ih =>
      show startAttempts (failTick cfg3 streamRange restingError).2 +
        attemptsIn cfg3 streamRange k
          (tickWorld cfg3 streamRange restingError) = 0
      rw [failTick_fixed]
      rw [show tickWorld cfg3 streamRange restingError = restingError from
        congrArg Prod.fst failTick_fixed]
      simpa [startAttempts] using ih

/-- Claim C2: when retryCount has reached maxRetries the start action is a
no-op with no effects; with maxRetries = 3 and a controller whose start
always fails, exactly 3 start attempts are ever issued, the session rests
in the error state with retryCount 3 and an error message, and no further
attempts occur. -/
theorem C2_retry_cap :
    (∀ (config : ReconcilerConfig) (range : Ports.PortRange) (ok : Bool)
        (w : RecWorld), config.maxRetries ≤ w.state.retryCount →
        startSession config range ok w = ⟨w, [], none⟩) ∧
    (∀ n : Nat, attemptsIn cfg3 streamRange n initialWorld ≤ 3) ∧
    (∀ n : Nat, attemptsIn cfg3 streamRange (5 + n) initialWorld = 3) ∧
    (∀ n : Nat, afterTicks cfg3 streamRange (5 + n) initialWorld =
        restingError) ∧
    restingError.state.actualState = .error ∧
    restingError.state.retryCount = 3 ∧
    restingError.state.errorMessage ≠ none := by
  have hafter : ∀ n : Nat,
      afterTicks cfg3 streamRange (5 + n) initialWorld = restingError := by
    intro n
    rw [afterTicks_add]
    rw [show afterTicks cfg3 streamRange 5 initialWorld = restingError from
      by decide]
    exact afterTicks_resting n
  have hatt : ∀ n : Nat,
      attemptsIn cfg3 streamRange (5 + n) initialWorld = 3 := by
    intro n
    rw [attemptsIn_add]
    rw [show afterTicks cfg3 streamRange 5 initialWorld = restingError from
      by decide]
    rw [show attemptsIn cfg3 streamRange 5 initialWorld = 3 from by decide]
    rw [attemptsIn_resting n]
  refine ⟨?_, ?_, hatt, hafter, by decide, by decide, by decide⟩
  · intro config range ok w h
    unfold startSession
    simp only [if_pos h]
  · intro n
    by_cases h5 : n < 5
    · interval_cases n <;> decide
    · have : n = 5 + (n - 5) := by omega
      rw [this, hatt (n - 5)]

theorem C2_retry_cap_witness :
    startSession cfg3 streamRange true restingError = ⟨restingError, [], none⟩ :=
  C2_retry_cap.1 cfg3 streamRange true restingError (by decide)

/-- With any effects before it and any port-release effects in the middle,
the stopping transition, the controller stop and the stopped transition
appear in order in a stop trace. -/
theorem stopTrace_sublist (ev0 ev1 : List RecEvent) :
    List.Sublist
      [RecEvent.setActual .stopping, RecEvent.daemonStop,
        RecEvent.setActual .stopped]
      (ev0 ++ [RecEvent.setActual .stopping, RecEvent.daemonStop] ++ ev1 ++
        [RecEvent.setActual .stopped]) := by
  have h1 : List.Sublist
      [RecEvent.setActual ActualState.stopping, RecEvent.daemonStop]
      (ev0 ++ [RecEvent.setActual ActualState.stopping, RecEvent.daemonStop]) :=
    List.sublist_append_right _ _
  have h2 : List.Sublist [RecEvent.setActual ActualState.stopped]
      (ev1 ++ [RecEvent.setActual ActualState.stopped]) :=
    List.sublist_append_right _ _
  have h := List.Sublist.append h1 h2
  simp only [List.append_assoc] at h ⊢
  exact h

theorem stopTrace_sublist_mid (ev0 mid : List RecEvent) :
    List.Sublist
      ([RecEvent.setActual .stopping, RecEvent.daemonStop] ++ mid ++
        [RecEvent.setActual .stopped])
      (ev0 ++ [RecEvent.setActual .stopping, RecEvent.daemonStop] ++ mid ++
        [RecEvent.setActual .stopped]) := by
  have h := List.sublist_append_right ev0
    ([RecEvent.setActual ActualState.stopping, RecEvent.daemonStop] ++ mid ++
      [RecEvent.setActual ActualState.stopped])
  simp only [List.append_assoc] at h ⊢
  exact h

/-- Claim C3: stopSession persists a non-blank current URL as lastUrl, moves
through stopping, calls the controller stop, releases the stream port when
present, and ends stopped with streamPort null, retryCount 0 and
errorMessage null. -/
theorem C3_stop_daemon (currentUrl : Option String) (w : RecWorld) :
    (stopSession currentUrl w).world.state.actualState = .stopped ∧
    (stopSession currentUrl w).world.state.streamPort = none ∧
    (stopSession currentUrl w).world.state.retryCount = 0 ∧
    (stopSession currentUrl w).world.state.errorMessage = none ∧
    (stopSession currentUrl w).world.state.lastUrl =
      (if shouldPersistUrl currentUrl then currentUrl else w.state.lastUrl) ∧
    List.Sublist
      [RecEvent.setActual .stopping, RecEvent.daemonStop,
        RecEvent.setActual .stopped]
      (stopSession currentUrl w).events ∧
    (∀ p, w.state.streamPort = some p →
      List.Sublist
          [RecEvent.setActual .stopping, RecEvent.daemonStop,
            RecEvent.portReleased p, RecEvent.setActual .stopped]
          (stopSession currentUrl w).events ∧
        (stopSession currentUrl w).world.held = Ports.release p w.held) ∧
    (w.state.streamPort = none →
      (stopSession currentUrl w).world.held = w.held ∧
        ∀ p, RecEvent.portReleased p ∉ (stopSession currentUrl w).events) := by
  refine ⟨by simp [stopSession, setActualState],
    by simp [stopSession, setActualState],
    by simp [stopSession, setActualState],
    by simp [stopSession, setActualState], ?_, ?_, ?_, ?_⟩
  · rcases currentUrl with _ | u
    · simp [stopSession, setActualState, shouldPersistUrl]
    · by_cases hu : (u != "" && u != "about:blank") = true
      · simp [stopSession, setActualState, shouldPersistUrl, hu]
      · simp [stopSession, setActualState, shouldPersistUrl, hu]
  · exact stopTrace_sublist _ _
  · intro p hp
    constructor
    · show List.Sublist
        ([RecEvent.setActual .stopping, RecEvent.daemonStop] ++
          [RecEvent.portReleased p] ++ [RecEvent.setActual .stopped])
        (stopSession currentUrl w).events
      simp only [stopSession, hp]
      exact stopTrace_sublist_mid _ _
    · simp [stopSession, hp]
  · intro hnone
    constructor
    · simp [stopSession, hnone]
    · intro p
      rcases currentUrl with _ | u
      · simp [stopSession, hnone]
      · by_cases hu : (u != "" && u != "about:blank") = true
        · simp [stopSession, hnone, hu]
        · simp [stopSession, hnone, hu]

theorem C3_stop_daemon_witness :
    RecEvent.portReleased 9300 ∈
      (stopSession (some "https://example.test")
        ⟨⟨"session-1", .stopped, .running, some 9300, none, 1, some "boom"⟩,
          {9300}⟩).events :=
  ((C3_stop_daemon (some "https://example.test")
      ⟨⟨"session-1", .stopped, .running, some 9300, none, 1, some "boom"⟩,
        {9300}⟩).2.2.2.2.2.2.1 9300 rfl).1.subset (by simp)

end Reconciler

namespace Cleanup

theorem cleanup_no_session {sessionId : String} {w : CleanupWorld}
    (h : w.sessions.find? (fun s => s.id == sessionId) = none) :
    cleanupSession sessionId w = w := by
  simp [cleanupSession, h]

theorem cleanup_removes_session (sessionId : String) (w : CleanupWorld) :
    (cleanupSession sessionId w).sessions.find?
      (fun s => s.id == sessionId) = none := by
  rcases h : w.sessions.find? (fun s => s.id == sessionId) with _ | session
  · rw [cleanup_no_session h]; exact h
  · simp only [cleanupSession, h]
    rw [List.find?_eq_none]
    intro x hx
    have h2 := (List.mem_filter.1 hx).2
    simp only [bne_iff_ne, ne_eq] at h2
    simp [h2]

/-- Claim C5: cleanupSession is idempotent: a second application finds no
session row and changes nothing, so two applications in sequence end in
the same state as one. -/
theorem C5_cleanup_idempotent (sessionId : String) (w : CleanupWorld) :
    cleanupSession sessionId (cleanupSession sessionId w) =
      cleanupSession sessionId w :=
  cleanup_no_session (cleanup_removes_session sessionId w)

end Cleanup

namespace Monitor

/-- Claim C7: the monitor maps start to running, stop, die and kill to
stopped, restart to starting, oom to error and health_status=unhealthy to
error, ignores every other action with no update, and for a mapped event
carrying a non-empty lab.session label and a known runtime id it updates
that row's status and publishes one update delta on sessionContainers with
uuid equal to the label's session id. -/
theorem C7_container_monitor :
    (∀ cid attrs, mapEventToStatus ⟨"start", cid, attrs⟩ = some .running) ∧
    (∀ cid attrs, mapEventToStatus ⟨"stop", cid, attrs⟩ = some .stopped) ∧
    (∀ cid attrs, mapEventToStatus ⟨"die", cid, attrs⟩ = some .stopped) ∧
    (∀ cid attrs, mapEventToStatus ⟨"kill", cid, attrs⟩ = some .stopped) ∧
    (∀ cid attrs, mapEventToStatus ⟨"restart", cid, attrs⟩ = some .starting) ∧
    (∀ cid attrs, mapEventToStatus ⟨"oom", cid, attrs⟩ = some .error) ∧
    (∀ cid attrs, lookupAttr attrs "health_status" = some "unhealthy" →
      mapEventToStatus ⟨"health_status", cid, attrs⟩ = some .error) ∧
    (∀ e : DockerContainerEvent, e.action ≠ "start" → e.action ≠ "stop" →
      e.action ≠ "die" → e.action ≠ "kill" → e.action ≠ "restart" →
      e.action ≠ "oom" → e.action ≠ "health_status" →
      mapEventToStatus e = none) ∧
    (∀ (db : List SessionContainerRow) e, mapEventToStatus e = none →
      processEvent db e = (db, [])) ∧
    (∀ (db : List SessionContainerRow) e st sid sc,
      mapEventToStatus e = some st →
      lookupAttr e.attributes labelSession = some sid → sid ≠ "" →
      db.find? (fun c => c.dockerId == e.containerId) = some sc →
      processEvent db e =
        (db.map (fun c =>
          if c.id == sc.id then { c with status := st } else c),
          [MonitorDelta.update "sessionContainers" sid sc.id st])) := by
  refine ⟨fun _ _ => rfl, fun _ _ => rfl, fun _ _ => rfl, fun _ _ => rfl,
    fun _ _ => rfl, fun _ _ => rfl, ?_, ?_, ?_, ?_⟩
  · intro cid attrs h
    simp [mapEventToStatus, h]
  · intro e h1 h2 h3 h4 h5 h6 h7
    simp only [mapEventToStatus]
  · intro db e h
    simp [processEvent, h]
  · intro db e st sid sc h1 h2 h3 h4
    simp [processEvent, h1, h2, h3, h4]

theorem C7_container_monitor_witness :
    processEvent
        [(⟨"sc1", "sess1", "docker1", ContainerStatus.starting⟩ :
          SessionContainerRow)]
        ⟨"die", "docker1", [(labelSession, "sess1")]⟩ =
      ([(⟨"sc1", "sess1", "docker1", ContainerStatus.stopped⟩ :
          SessionContainerRow)],
        [MonitorDelta.update "sessionContainers" "sess1" "sc1"
          ContainerStatus.stopped]) := by
  have h := C7_container_monitor.2.2.2.2.2.2.2.2.2
    [(⟨"sc1", "sess1", "docker1", ContainerStatus.starting⟩ :
      SessionContainerRow)]
    ⟨"die", "docker1", [(labelSession, "sess1")]⟩ ContainerStatus.stopped
    "sess1" ⟨"sc1", "sess1", "docker1", ContainerStatus.starting⟩
    rfl rfl (by decide) rfl
  rw [h]
  decide

end Monitor

namespace Proxy

theorem mem_setHeader_self (hs : List (String × String)) (k v : String) :
    (k, v) ∈ setHeader hs k v := by
  simp [setHeader]

theorem mem_setHeader_of_ne {hs : List (String × String)}
    {k v k' v' : String} (h : (k', v') ∈ hs) (hk : k' ≠ k) :
    (k', v') ∈ setHeader hs k v := by
  simp only [setHeader, List.mem_append, List.mem_filter]
  exact Or.inl ⟨h, by simpa [bne_iff_ne] using hk⟩

theorem buildCors_hasCors (resp : ProxResponse) :
    hasCorsHeaders (buildCorsProxyResponse resp) := by
  intro kv hkv
  simp only [corsHeaders, List.mem_cons, List.not_mem_nil, or_false] at hkv
  simp only [buildCorsProxyResponse, corsHeaders, List.foldl_cons,
    List.foldl_nil]
  rcases hkv with h | h | h <;> subst h
  · exact mem_setHeader_of_ne
      (mem_setHeader_of_ne (mem_setHeader_self _ _ _) (by decide)) (by decide)
  · exact mem_setHeader_of_ne (mem_setHeader_self _ _ _) (by decide)
  · exact mem_setHeader_self _ _ _

/-- Claim C6 is refuted at these inputs: an OPTIONS request for /health is
answered by the health check with a bare 200 OK, not 204, and without the
CORS headers; an invalid Host on a GET yields a 400 without the CORS
headers. -/
theorem C6_counterexample :
    fetchHandler env0 ⟨"OPTIONS", "/health", some "abc.lab.example", none⟩ =
      .response ⟨200, [], "OK"⟩ ∧
    ¬ hasCorsHeaders ⟨200, [], "OK"⟩ ∧
    fetchHandler env0 ⟨"GET", "/foo", some "bad-host", none⟩ =
      .response ⟨400, [], "Bad Request: Invalid subdomain format"⟩ ∧
    ¬ hasCorsHeaders ⟨400, [], "Bad Request: Invalid subdomain format"⟩ := by
  refine ⟨rfl, by decide, rfl, by decide⟩

/-- Claim C6 (amended): every response built from a proxied upstream
response carries the permissive CORS headers, every OPTIONS request whose
path is not /health receives 204 with those headers regardless of Host,
and the /health endpoint answers 200 OK without them. -/
theorem C6_cors (env : ProxyEnv) (req : ProxRequest) :
    (req.method = "OPTIONS" → req.path ≠ "/health" →
      fetchHandler env req = .response ⟨204, corsHeaders, ""⟩) ∧
    (∀ resp, hasCorsHeaders (buildCorsProxyResponse resp)) ∧
    (∀ host parsed up resp,
      req.path ≠ "/health" → req.method ≠ "OPTIONS" →
      req.host = some host → env.parseSub host = some parsed →
      env.resolve parsed.1 parsed.2 = some up →
      req.upgradeHeader.map (fun s => s.toLower) ≠ some "websocket" →
      env.upstream up req = .ok resp →
      fetchHandler env req = .response (buildCorsProxyResponse resp) ∧
        hasCorsHeaders (buildCorsProxyResponse resp)) ∧
    (req.path = "/health" →
      fetchHandler env req = .response ⟨200, [], "OK"⟩) := by
  refine ⟨?_, buildCors_hasCors, ?_, ?_⟩
  · intro h1 h2
    simp [fetchHandler, h1, h2]
  · intro host parsed up resp h1 h2 h3 h4 h5 h6 h7
    refine ⟨?_, buildCors_hasCors resp⟩
    simp [fetchHandler, h1, h2, h3, h4, h5, h6, h7]
  · intro h
    simp [fetchHandler, h]

theorem C6_cors_witness :
    fetchHandler env0 ⟨"OPTIONS", "/sessions", none, none⟩ =
      .response ⟨204, corsHeaders, ""⟩ :=
  (C6_cors env0 ⟨"OPTIONS", "/sessions", none, none⟩).1 rfl (by decide)

end Proxy

namespace Reconciler

theorem collect_foldl (runOne : BrowserSessionState → Except String Unit)
    (sessions : List BrowserSessionState)
    (acc : List String × List (String × String)) :
    sessions.foldl (collectStep runOne) acc =
      (acc.1 ++ sessions.map (fun s => s.sessionId),
        acc.2 ++ collectedErrors runOne sessions) := by
  induction sessions generalizing acc with
  | nil => simp [collectedErrors]
  | cons s rest ih =>
      rw [List.foldl_cons, ih]
      cases hr : runOne s with
      | ok u =>
          simp [collectStep, collectedErrors, hr, List.append_assoc]
      | error e =>
          simp [collectStep, collectedErrors, hr, List.append_assoc]

theorem collectedErrors_eq_nil
    (runOne : BrowserSessionState → Except String Unit)
    (sessions : List BrowserSessionState) :
    collectedErrors runOne sessions = [] ↔
      ∀ s ∈ sessions, runOne s = .ok () := by
  induction sessions with
  | nil => simp [collectedErrors]
  | cons s rest ih =>
      cases hr : runOne s with
      | ok u =>
          cases u
          simp only [collectedErrors, List.flatMap_cons, hr, List.nil_append]
          rw [show rest.flatMap (fun s =>
              match runOne s with
              | .ok _ => []
              | .error e => [(s.sessionId, e)]) =
            collectedErrors runOne rest from rfl, ih]
          simp [hr]
      | error e =>
          simp only [collectedErrors, List.flatMap_cons, hr]
          constructor
          · intro hcon
            exact absurd hcon (by simp)
          · intro hall
            have hbad := hall s (by simp)
            rw [hr] at hbad
            exact absurd hbad (by simp)

/-- Claim C8: reconcileAll attempts every session of the list even when
earlier sessions fail, collects the failures, and surfaces them once as a
single AggregateError after the pass; the pass succeeds exactly when every
session's reconcile succeeded, and the aggregate carries the failing
sessions' errors in order. -/
theorem C8_reconcile_all (runOne : BrowserSessionState → Except String Unit)
    (sessions : List BrowserSessionState) :
    (reconcileAll runOne sessions).1 =
      sessions.map (fun s => s.sessionId) ∧
    ((reconcileAll runOne sessions).2 = .ok () ↔
      ∀ s ∈ sessions, runOne s = .ok ()) ∧
    (∀ agg, (reconcileAll runOne sessions).2 = .error agg →
      agg.errors = (collectedErrors runOne sessions).map (fun p => p.2)) := by
  have hf := collect_foldl runOne sessions ([], [])
  refine ⟨?_, ?_, ?_⟩
  · simp [reconcileAll, hf]
  · simp only [reconcileAll, hf, List.nil_append]
    by_cases he : collectedErrors runOne sessions = []
    · have hall := (collectedErrors_eq_nil runOne sessions).1 he
      simp [he]
      exact hall
    · have hne : (collectedErrors runOne sessions).isEmpty = false := by
        simpa [List.isEmpty_iff] using he
      simp only [hne, Bool.false_eq_true, if_false]
      constructor
      · intro hcon
        exact absurd hcon (by simp)
      · intro hall
        exact absurd ((collectedErrors_eq_nil runOne sessions).2 hall) he
  · intro agg h
    simp only [reconcileAll, hf, List.nil_append] at h
    by_cases he : (collectedErrors runOne sessions).isEmpty
    · rw [if_pos he] at h
      exact absurd h (by simp)
    · rw [if_neg he] at h
      rw [← Except.error.inj h]

theorem C8_reconcile_all_witness :
    (reconcileAll (fun _ => Except.ok ())
        [⟨"session-1", .running, .stopped, none, none, 0, none⟩]).2 =
      .ok () :=
  (C8_reconcile_all (fun _ => Except.ok ())
    [⟨"session-1", .running, .stopped, none, none, 0, none⟩]).2.1.mpr
    (by intro s _; rfl)

end Reconciler

namespace Spawn

theorem displayName_ne_ncd (image : String) :
    displayNameFromImage image ≠ .error .NoContainerDefinitions := by
  unfold displayNameFromImage
  rcases ((image.splitOn "/").getLastD "").splitOn ":" with _ | ⟨name, rest⟩
  · simp
  · by_cases hn : name = "" <;> simp [hn]

theorem extract_ne_ncd (d : ContainerDef) :
    extractContainerDisplayName d ≠ .error .NoContainerDefinitions := by
  unfold extractContainerDisplayName
  rcases hd : d.hostname with _ | h
  · exact displayName_ne_ncd d.image
  · by_cases hh : h = ""
    · simpa [hh] using displayName_ne_ncd d.image
    · simp [hh]

theorem spawnStep_foldl_ne_ncd (sid : String) (defs : List ContainerDef)
    (acc : SpawnWorld × Except SpawnError (List ContainerView))
    (h : acc.2 ≠ Except.error SpawnError.NoContainerDefinitions) :
    (defs.foldl (spawnStep sid) acc).2 ≠
      Except.error SpawnError.NoContainerDefinitions := by
  induction defs generalizing acc with
  | nil => simpa using h
  | cons d rest ih =>
      rw [List.foldl_cons]
      apply ih
      unfold spawnStep
      cases hacc : acc.2 with
      | error e => exact h
      | ok views =>
          cases hx : extractContainerDisplayName d with
          | error e =>
              intro hc
              have he2 : e = SpawnError.NoContainerDefinitions := by
                simpa using hc
              exact extract_ne_ncd d (by rw [hx, he2])
          | ok name => simp

theorem cswc_ne_ncd (findDefs : String → List ContainerDef)
    (projectId : String) (title : Option String) (w : SpawnWorld)
    (hne : (findDefs projectId).isEmpty = false) :
    (createSessionWithContainers findDefs projectId title w).2 ≠
      Except.error SpawnError.NoContainerDefinitions := by
  have hfold := spawnStep_foldl_ne_ncd (createSession w projectId title).2.id
    (findDefs projectId)
    ((createSession w projectId title).1, Except.ok []) (by simp)
  simp only [createSessionWithContainers, hne, Bool.false_eq_true, if_false]
  cases hm : ((findDefs projectId).foldl
      (spawnStep (createSession w projectId title).2.id)
      ((createSession w projectId title).1, Except.ok [])).2 with
  | error e =>
      rw [hm] at hfold
      simpa [hm] using hfold
  | ok views =>
      simp [hm]

/-- Claim C9: when no pooled session is claimable, spawn fails with
NoContainerDefinitions exactly when the project's container definitions
are empty, and in that failing case the world is returned unchanged: no
Session row and no SessionContainer row is inserted. -/
theorem C9_no_container_definitions
    (findDefs : String → List ContainerDef)
    (claimPooled : SpawnWorld →
      Option (SpawnWorld × SessionRow × List ContainerView))
    (projectId taskSummary : String) (w : SpawnWorld)
    (h : claimPooled w = none) :
    ((spawnSession findDefs claimPooled projectId taskSummary w).2 =
        .error .NoContainerDefinitions ↔ findDefs projectId = []) ∧
    (findDefs projectId = [] →
      spawnSession findDefs claimPooled projectId taskSummary w =
        (w, .error .NoContainerDefinitions)) := by
  have hs : spawnSession findDefs claimPooled projectId taskSummary w =
      createSessionWithContainers findDefs projectId
        (some (normalizeTaskSummary taskSummary)) w := by
    simp [spawnSession, h]
  refine ⟨⟨?_, ?_⟩, ?_⟩
  · intro he
    by_cases hempty : findDefs projectId = []
    · exact hempty
    · exfalso
      have hne : (findDefs projectId).isEmpty = false := by
        simpa [List.isEmpty_iff] using hempty
      exact cswc_ne_ncd findDefs projectId
        (some (normalizeTaskSummary taskSummary)) w hne (hs ▸ he)
  · intro he
    rw [hs]
    simp [createSessionWithContainers, he]
  · intro he
    rw [hs]
    simp [createSessionWithContainers, he]

theorem C9_no_container_definitions_witness :
    (spawnSession (fun _ => []) (fun _ => none) "project-1" "some task"
        ⟨[], [], [], 0⟩).2 = .error .NoContainerDefinitions :=
  (C9_no_container_definitions (fun _ => []) (fun _ => none) "project-1"
    "some task" ⟨[], [], [], 0⟩ rfl).1.mpr rfl

end Spawn

namespace Bus

/-- Claim C1 is refuted on the code: for a fresh socket subscribing to the
sessions channel of a schema whose loader succeeds, the subscription is
recorded at position 0 of the trace and the snapshot is emitted at
position 3, so the snapshot does not precede the recording of the
subscription as the claim orders them. -/
theorem C1_counterexample :
    idxSnapshotSent (handleSubscribe okSchema freshSocket "sessions").2
        "sessions" = some 3 ∧
    idxSubscriptionRecorded
        (handleSubscribe okSchema freshSocket "sessions").2 "sessions" =
      some 0 ∧
    ¬ snapshotBeforeRecord (handleSubscribe okSchema freshSocket "sessions").2
        "sessions" := by
  refine ⟨rfl, rfl, ?_⟩
  rintro ⟨i, j, h1, h2, hij⟩
  rw [show idxSnapshotSent
      (handleSubscribe okSchema freshSocket "sessions").2 "sessions" =
    some 3 from rfl] at h1
  rw [show idxSubscriptionRecorded
      (handleSubscribe okSchema freshSocket "sessions").2 "sessions" =
    some 0 from rfl] at h2
  injection h1 with h1'
  injection h2 with h2'
  omega

/-- Claim C1 (amended): for every subscribe that matches a handled channel
and passes authorization, the bus first records the subscription on the
socket and subscribes it to the topic, then invokes the snapshot loader,
and then emits the snapshot (or the loader's error) to the socket; at most
one snapshot is sent per subscribe. -/
theorem C1_subscribe_order (findMatch : String → Option ChannelMatch)
    (ws : SocketState) (channel : String) (mtch : ChannelMatch)
    (handler : ChannelHandler)
    (hm : findMatch channel = some mtch)
    (hh : mtch.handler = some handler)
    (ha : authorizeResult handler ⟨ws.auth, mtch.params⟩ = true) :
    (handleSubscribe findMatch ws channel).1.subscriptions =
      insert channel ws.subscriptions ∧
    (handleSubscribe findMatch ws channel).2 =
      [BusEvent.subscriptionRecorded channel,
        BusEvent.topicSubscribed channel,
        BusEvent.snapshotLoaderInvoked channel,
        BusEvent.sent
          (match handler.getSnapshot ⟨ws.auth, mtch.params⟩ with
           | .ok snap => ServerMessage.snapshot channel snap
           | .error e => ServerMessage.errorMsg channel e)] ∧
    snapshotCount (handleSubscribe findMatch ws channel).2 channel ≤ 1 := by
  simp only [handleSubscribe, hm, hh, ha, if_true]
  refine ⟨trivial, trivial, ?_⟩
  cases hg : handler.getSnapshot ⟨ws.auth, mtch.params⟩ with
  | ok snap => simp [snapshotCount, hg]
  | error e => simp [snapshotCount, hg]

theorem C1_subscribe_order_witness :
    (handleSubscribe okSchema freshSocket "sessions").1.subscriptions =
      insert "sessions" (∅ : Finset String) :=
  (C1_subscribe_order okSchema freshSocket "sessions"
    ⟨[], some okHandler⟩ okHandler rfl rfl rfl).1

/-- Claim C10: when the snapshot loader throws during an authorized
subscribe, an error message is sent instead of a snapshot, yet the
subscription is recorded: the channel is in the socket's subscription set
and the socket receives every delta later published on that path. -/
theorem C10_snapshot_failure (findMatch : String → Option ChannelMatch)
    (ws : SocketState) (channel : String) (mtch : ChannelMatch)
    (handler : ChannelHandler) (msg : String)
    (hm : findMatch channel = some mtch)
    (hh : mtch.handler = some handler)
    (ha : authorizeResult handler ⟨ws.auth, mtch.params⟩ = true)
    (hs : handler.getSnapshot ⟨ws.auth, mtch.params⟩ = .error msg) :
    (handleSubscribe findMatch ws channel).1.subscriptions =
      insert channel ws.subscriptions ∧
    channel ∈ (handleSubscribe findMatch ws channel).1.subscriptions ∧
    sentMessages (handleSubscribe findMatch ws channel).2 =
      [ServerMessage.errorMsg channel msg] ∧
    snapshotCount (handleSubscribe findMatch ws channel).2 channel = 0 ∧
    receivesDelta (handleSubscribe findMatch ws channel).1 channel = true := by
  simp only [handleSubscribe, hm, hh, ha, if_true, hs]
  refine ⟨trivial, by simp, ?_, ?_, ?_⟩
  · simp [sentMessages]
  · simp [snapshotCount]
  · simp [receivesDelta]

theorem C10_snapshot_failure_witness :
    sentMessages (handleSubscribe failSchema freshSocket "sessions").2 =
      [ServerMessage.errorMsg "sessions" "boom"] :=
  (C10_snapshot_failure failSchema freshSocket "sessions"
    ⟨[], some failHandler⟩ failHandler "boom" rfl rfl rfl rfl).2.2.1

end Bus
